import Mathlib

/-!
Verification of the TNEA choice-filling server's ranking core
(`src/index.ts`, class `TNEAMCPServer`): a shallow embedding of the
data model, of `generateSelectionPayload` and of the precondition
checks of `handleGenerateChoices`, together with theorems settling the
specification's claims about them.

Modelling conventions:
* JS strings are `String`, JS numbers in seat counts are `Int`
  (the `SeatData` interface types every category count as `number`),
  and cutoff scores are `ℚ`.
* A cutoff field of type `string | number` is embedded as the result
  of `parseFloat(String(v))`: `Option ℚ`, with `none` standing for
  `NaN` (non-numeric or absent).
* `CutoffData.coc` is declared `number` in the source but is only ever
  used through `String(c.coc)`, compared against the string `colCode`;
  it is embedded directly as that string.
* `Array.prototype.sort` with the comparator `(a, b) => b.cutoff - a.cutoff`
  is, per the ECMAScript specification, the stable descending sort by
  `cutoff`; it is embedded as `List.insertionSort` with the relation
  `cutoffGE`, which is extensionally that unique stable sort.
-/

/-- The seven reservation category codes (`'OC' | 'BC' | 'BCM' | 'MBC' | 'SC' | 'SCA' | 'ST'`). -/
inductive Category where
  | OC | BC | BCM | MBC | SC | SCA | ST
deriving DecidableEq, Repr

/-- One row of the live seat matrix (interface `SeatData`). -/
structure SeatData where
  _id : String
  feeCode : String
  allotSeq : Int
  colCode : String
  colName : String
  branCode : String
  branName : String
  OC : Int
  BCM : Int
  BC : Int
  MBC : Int
  SCA : Int
  SC : Int
  ST : Int
deriving DecidableEq, Repr

/-- The destructuring `seat[category as keyof SeatData]` for a category code. -/
def SeatData.seats (s : SeatData) : Category → Int
  | .OC => s.OC
  | .BC => s.BC
  | .BCM => s.BCM
  | .MBC => s.MBC
  | .SC => s.SC
  | .SCA => s.SCA
  | .ST => s.ST

/-- One historical cutoff row (interface `CutoffData`).  `coc` holds
`String(c.coc)`; each category field holds `parseFloat(String(v))` of the
stored `string | number` value, `none` meaning `NaN`. -/
structure CutoffData where
  _id : String
  coc : String
  con : String
  brc : String
  brn : String
  code : String
  OC : Option ℚ
  BC : Option ℚ
  BCM : Option ℚ
  MBC : Option ℚ
  SC : Option ℚ
  SCA : Option ℚ
  ST : Option ℚ
deriving DecidableEq, Repr

/-- The lookup `matchingCutoff[category as keyof CutoffData]` (already parsed). -/
def CutoffData.catValue (c : CutoffData) : Category → Option ℚ
  | .OC => c.OC
  | .BC => c.BC
  | .BCM => c.BCM
  | .MBC => c.MBC
  | .SC => c.SC
  | .SCA => c.SCA
  | .ST => c.ST

/-- One course whitelist entry (interface `Course`). -/
structure Course where
  branCode : String
  branName : String
deriving DecidableEq, Repr

/-- One emitted candidate (interface `ValidSelection`). -/
structure ValidSelection where
  id : String
  college : String
  branch : String
  cutoff : ℚ
deriving DecidableEq, Repr

/-- One entry of the returned `reference` array. -/
structure Reference where
  college : String
  branch : String
  cutoff : ℚ
deriving DecidableEq, Repr

/-- The value returned by `generateSelectionPayload`. -/
structure SelectionPayload where
  selections : List String
  reference : List Reference
deriving DecidableEq, Repr

/-- The mutable fields of `TNEAMCPServer` that the tools read and write. -/
structure ServerState where
  sessionId : Option String
  seatMatrix : List SeatData
  cutoffData : List CutoffData
  preferredCourses : List Course
deriving DecidableEq, Repr

/-- Arguments of the `generate_choices` tool (interface `GenerateChoicesArgs`).
`districtChoices` is `Option` so that the JS truthiness guard
`!args.districtChoices` (true exactly on `undefined`/`null`, false on `[]`)
can be stated; the optional fields carry the destructuring defaults. -/
structure GenerateChoicesArgs where
  districtChoices : Option (List String)
  topPrefDist : Option (List String)
  minCutoff : Option ℚ
  category : Option Category
deriving DecidableEq, Repr

/-- `pat` begins `hay` character for character (helper for `jsIncludes`). -/
def charsStartWith : List Char → List Char → Bool
  | [], _ => true
  | _ :: _, [] => false
  | p :: ps, h :: hs => p == h && charsStartWith ps hs

/-- `pat` occurs contiguously somewhere in the character list. -/
def charsContain (pat : List Char) : List Char → Bool
  | [] => pat.isEmpty
  | h :: hs => charsStartWith pat (h :: hs) || charsContain pat hs

/-- JS `hay.includes(pat)`. -/
def jsIncludes (hay pat : String) : Bool :=
  charsContain pat.data hay.data

/-- The helper `normalize = (str) => str?.toLowerCase()`, as character-wise
ASCII lowercasing. -/
def jsToLower (s : String) : String :=
  ⟨s.data.map Char.toLower⟩

/-- `dists.some(dist => normalize(college).includes(normalize(dist)))`. -/
def matchesDistrict (dists : List String) (college : String) : Bool :=
  dists.any fun d => jsIncludes (jsToLower college) (jsToLower d)

/-- `String(c.coc) === String(colCode) && c.brc === branCode`. -/
def exactCutoffMatch (seat : SeatData) (c : CutoffData) : Bool :=
  c.coc == seat.colCode && c.brc == seat.branCode

/-- `String(c.coc) === String(colCode) && c.brc === "CS"`. -/
def csFallbackMatch (seat : SeatData) (c : CutoffData) : Bool :=
  c.coc == seat.colCode && c.brc == "CS"

/-- The two-stage `find` of a matching cutoff record: first the exact
(college, course) match, then the `"CS"` fallback in the same college. -/
def findMatchingCutoff (cutoffs : List CutoffData) (seat : SeatData) : Option CutoffData :=
  match cutoffs.find? (exactCutoffMatch seat) with
  | some c => some c
  | none => cutoffs.find? (csFallbackMatch seat)

/-- `parseFloat(String(mc[category])) || parseFloat(String(mc.OC))`, with the
subsequent `isNaN` drop folded in as `none`.  The JS `||` takes the right
operand when the left is `NaN` or `0` (both falsy). -/
def resolveCutoffScore (c : CutoffData) (cat : Category) : Option ℚ :=
  match c.catValue cat with
  | some v => if v = 0 then c.OC else some v
  | none => c.OC

/-- The body of the per-seat loop of `generateSelectionPayload`: `none` for
every `continue`/unmatched/no-score path, `some` for a pushed candidate.
(The `unMatched` counter and `withoutCutoff` diagnostic list do not reach the
returned payload and are not modelled.) -/
def processSeat (cutoffs : List CutoffData) (allowed : List String) (cat : Category)
    (seat : SeatData) : Option ValidSelection :=
  if !(allowed.contains seat.branCode) then none
  else if seat.seats cat ≤ 0 then none
  else
    match findMatchingCutoff cutoffs seat with
    | none => none
    | some mc =>
      match resolveCutoffScore mc cat with
      | none => none
      | some score => some ⟨seat._id, seat.colName, seat.branName, score⟩

/-- `new Set(this.preferredCourses.map(course => course.branCode))`, as the
list whose `contains` is the set's `has`. -/
def allowedBranchCodes (st : ServerState) : List String :=
  st.preferredCourses.map (·.branCode)

/-- The `validSelections` array after the loop, in seat-matrix order. -/
def validSelections (st : ServerState) (cat : Category) : List ValidSelection :=
  st.seatMatrix.filterMap (processSeat st.cutoffData (allowedBranchCodes st) cat)

/-- The comparator order of `(a, b) => b.cutoff - a.cutoff`: `a` may come
before `b` iff `b.cutoff ≤ a.cutoff`. -/
def cutoffGE (a b : ValidSelection) : Prop :=
  b.cutoff ≤ a.cutoff

instance : DecidableRel cutoffGE := fun a b =>
  inferInstanceAs (Decidable (b.cutoff ≤ a.cutoff))

instance : IsTotal ValidSelection cutoffGE :=
  ⟨fun a b => le_total b.cutoff a.cutoff⟩

instance : IsTrans ValidSelection cutoffGE :=
  ⟨fun _ _ _ hab hbc => le_trans hbc hab⟩

/-- `validSelections.sort((a, b) => b.cutoff - a.cutoff)`: the stable
descending sort by cutoff. -/
def sortedSelections (st : ServerState) (cat : Category) : List ValidSelection :=
  List.insertionSort cutoffGE (validSelections st cat)

/-- The district filter over the sorted candidates. -/
def filteredByDistrict (st : ServerState) (districtChoices : List String)
    (cat : Category) : List ValidSelection :=
  (sortedSelections st cat).filter fun item => matchesDistrict districtChoices item.college

/-- The branch of the partition loop: `isTopDist && item.cutoff > minCutoff`. -/
def isTopChoice (topPrefDist : List String) (minCutoff : ℚ) (item : ValidSelection) : Bool :=
  matchesDistrict topPrefDist item.college && decide (minCutoff < item.cutoff)

/-- The `topPreferredHighCutoff` array built by the partition loop. -/
def topPreferredHighCutoff (st : ServerState) (districtChoices topPrefDist : List String)
    (minCutoff : ℚ) (cat : Category) : List ValidSelection :=
  (filteredByDistrict st districtChoices cat).filter (isTopChoice topPrefDist minCutoff)

/-- The `others` array built by the partition loop. -/
def othersGroup (st : ServerState) (districtChoices topPrefDist : List String)
    (minCutoff : ℚ) (cat : Category) : List ValidSelection :=
  (filteredByDistrict st districtChoices cat).filter
    fun item => !(isTopChoice topPrefDist minCutoff item)

/-- `finalSorted = [...topPreferredHighCutoff, ...others]`. -/
def finalSorted (st : ServerState) (districtChoices topPrefDist : List String)
    (minCutoff : ℚ) (cat : Category) : List ValidSelection :=
  topPreferredHighCutoff st districtChoices topPrefDist minCutoff cat
    ++ othersGroup st districtChoices topPrefDist minCutoff cat

/-- The method `generateSelectionPayload` of `TNEAMCPServer`. -/
def generateSelectionPayload (st : ServerState) (districtChoices topPrefDist : List String)
    (minCutoff : ℚ) (cat : Category) : SelectionPayload :=
  { selections := (finalSorted st districtChoices topPrefDist minCutoff cat).map (·.id)
    reference := (finalSorted st districtChoices topPrefDist minCutoff cat).map
      fun item => ⟨item.college, item.branch, item.cutoff⟩ }

/-- The method `handleGenerateChoices` of `TNEAMCPServer`: the four
precondition guards, the destructuring defaults, and the call to
`generateSelectionPayload`.  The method assigns to no field of `this`, so
the post-state it pairs with the result is the pre-state.  The guard
`!args.districtChoices || !Array.isArray(args.districtChoices)` throws
exactly when the field is `undefined`/`null` (`none` here): an empty array
is truthy in JS and `Array.isArray([])` holds, so `[]` passes it. -/
def handleGenerateChoices (st : ServerState) (args : GenerateChoicesArgs) :
    ServerState × Except String SelectionPayload :=
  if st.seatMatrix.length = 0 then
    (st, .error "Seat matrix not loaded. Please fetch available seats first.")
  else if st.cutoffData.length = 0 then
    (st, .error "Cutoff data not loaded. Please load cutoff data first.")
  else if st.preferredCourses.length = 0 then
    (st, .error "Course preferences not loaded. Please load course preferences first.")
  else
    match args.districtChoices with
    | none => (st, .error "districtChoices is required and must be an array")
    | some districtChoices =>
      (st, .ok (generateSelectionPayload st districtChoices (args.topPrefDist.getD [])
        (args.minCutoff.getD 85) (args.category.getD .MBC)))

/-- Helper building a seat row whose only nonzero count is at `MBC`. -/
def mkSeat (id colCode colName branCode branName : String) (mbc : Int) : SeatData :=
  ⟨id, "", 0, colCode, colName, branCode, branName, 0, 0, 0, mbc, 0, 0, 0⟩

/-- Helper building a cutoff row carrying only `MBC` and `OC` scores. -/
def mkCutoff (coc brc : String) (mbc oc : Option ℚ) : CutoffData :=
  ⟨"", coc, "", brc, "", "", oc, none, none, mbc, none, none, none⟩

/-- The worked scenario of the specification (with an integral cutoff score):
two seats of one Chennai college, one exact `CS` cutoff record scoring both —
`s1` by exact match, `s2` through the `"CS"` fallback. -/
def exState : ServerState :=
  ⟨none,
   [mkSeat "s1" "100" "Chennai Inst" "CS" "Computer Science" 5,
    mkSeat "s2" "100" "Chennai Inst" "EC" "Electronics" 3],
   [mkCutoff "100" "CS" (some 90) none],
   [⟨"CS", "Computer Science"⟩, ⟨"EC", "Electronics"⟩]⟩

/-- A cutoff record whose category column parses to `0` while its `OC`
column parses to `50`. -/
def zeroCutoffRecord : CutoffData :=
  mkCutoff "200" "CS" (some 0) (some 50)

/-- A session in which the only cutoff record is `zeroCutoffRecord`. -/
def zeroCutoffState : ServerState :=
  ⟨none,
   [mkSeat "s0" "200" "Gamma City Inst" "CS" "Computer Science" 2],
   [zeroCutoffRecord],
   [⟨"CS", "Computer Science"⟩]⟩

/-- Two colleges in different districts whose cutoffs tie at 90; only the
second lies in a top-preferred district. -/
def tieState : ServerState :=
  ⟨none,
   [mkSeat "sA" "101" "Alpha City Univ" "CS" "Computer Science" 4,
    mkSeat "sB" "102" "Beta Town Univ" "CS" "Computer Science" 4],
   [mkCutoff "101" "CS" (some 90) none, mkCutoff "102" "CS" (some 90) none],
   [⟨"CS", "Computer Science"⟩]⟩

/-- A session whose single seat's college code appears in no cutoff record. -/
def orphanState : ServerState :=
  ⟨none,
   [mkSeat "s9" "300" "Delta Inst" "CS" "Computer Science" 3],
   [mkCutoff "999" "CS" (some 80) none],
   [⟨"CS", "Computer Science"⟩]⟩

/-- If a predicate rejects every element of `pre` and accepts `r`, the first
hit of `find?` on `pre ++ r :: post` is `r`. -/
theorem find?_append_first {α : Type} (p : α → Bool) (pre post : List α) (r : α)
    (h1 : ∀ c ∈ pre, p c = false) (h2 : p r = true) :
    (pre ++ r :: post).find? p = some r := by
  induction pre with
  | nil => simp [List.find?, h2]
  | cons a as ih =>
    have ha : p a = false := h1 a (by simp)
    simp only [List.cons_append, List.find?, ha]
    exact ih fun c hc => h1 c (by simp [hc])

/-- A found matching cutoff record lies in the dataset and carries the seat's
college code (both branches of `findMatchingCutoff` require `coc` to match). -/
theorem findMatchingCutoff_some {cutoffs : List CutoffData} {seat : SeatData}
    {mc : CutoffData} (h : findMatchingCutoff cutoffs seat = some mc) :
    mc ∈ cutoffs ∧ mc.coc = seat.colCode := by
  unfold findMatchingCutoff at h
  cases hex : cutoffs.find? (exactCutoffMatch seat) with
  | some c =>
    rw [hex] at h
    cases h
    have hp := List.find?_some hex
    have hm := List.mem_of_find?_eq_some hex
    unfold exactCutoffMatch at hp
    simp only [Bool.and_eq_true, beq_iff_eq] at hp
    exact ⟨hm, hp.1⟩
  | none =>
    rw [hex] at h
    have hp := List.find?_some h
    have hm := List.mem_of_find?_eq_some h
    unfold csFallbackMatch at hp
    simp only [Bool.and_eq_true, beq_iff_eq] at hp
    exact ⟨hm, hp.1⟩

/-- Inversion of the per-seat loop body: an emitted candidate records the
seat's identity and passed every filter, and some matched cutoff record
yielded its score. -/
theorem processSeat_eq_some {cutoffs : List CutoffData} {allowed : List String}
    {cat : Category} {seat : SeatData} {v : ValidSelection}
    (h : processSeat cutoffs allowed cat seat = some v) :
    v.id = seat._id ∧ v.college = seat.colName ∧ v.branch = seat.branName ∧
    allowed.contains seat.branCode = true ∧ 0 < seat.seats cat ∧
    ∃ mc, findMatchingCutoff cutoffs seat = some mc ∧
      resolveCutoffScore mc cat = some v.cutoff := by
  unfold processSeat at h
  by_cases h1 : (!(allowed.contains seat.branCode)) = true
  · rw [if_pos h1] at h; cases h
  · rw [if_neg h1] at h
    by_cases h2 : seat.seats cat ≤ 0
    · rw [if_pos h2] at h; cases h
    · rw [if_neg h2] at h
      cases hf : findMatchingCutoff cutoffs seat with
      | none => rw [hf] at h; cases h
      | some mc =>
        rw [hf] at h
        dsimp only at h
        cases hs : resolveCutoffScore mc cat with
        | none => rw [hs] at h; cases h
        | some score =>
          rw [hs] at h
          dsimp only at h
          cases h
          refine ⟨rfl, rfl, rfl, ?_, by omega, mc, rfl, hs⟩
          simpa using h1

/-- Membership in `validSelections` means some seat row produced the candidate. -/
theorem mem_validSelections {st : ServerState} {cat : Category} {v : ValidSelection} :
    v ∈ validSelections st cat ↔ ∃ s ∈ st.seatMatrix,
      processSeat st.cutoffData (allowedBranchCodes st) cat s = some v := by
  simp [validSelections]

/-- Sorting does not change the candidate multiset, so not membership either. -/
theorem mem_sortedSelections {st : ServerState} {cat : Category} {v : ValidSelection} :
    v ∈ sortedSelections st cat ↔ v ∈ validSelections st cat :=
  List.mem_insertionSort cutoffGE

/-- The concatenated priority groups contain exactly what survived the
district filter. -/
theorem mem_finalSorted {st : ServerState} {dc tp : List String} {mcut : ℚ}
    {cat : Category} {v : ValidSelection} :
    v ∈ finalSorted st dc tp mcut cat ↔ v ∈ filteredByDistrict st dc cat := by
  simp only [finalSorted, topPreferredHighCutoff, othersGroup, List.mem_append,
    List.mem_filter]
  cases h : isTopChoice tp mcut v <;> simp [h]

/-- The stable descending sort leaves the candidate list sorted by `cutoffGE`. -/
theorem sorted_sortedSelections (st : ServerState) (cat : Category) :
    List.Sorted cutoffGE (sortedSelections st cat) :=
  List.sorted_insertionSort cutoffGE (validSelections st cat)

/-- Claim C1: the specification requires `generate_choices` to raise a
precondition error on `districtChoices = []` rather than silently return an
empty selection list.  The code does not: its guard
`!args.districtChoices || !Array.isArray(args.districtChoices)` passes for
the empty array (`[]` is truthy and is an array), so with all three datasets
loaded the call succeeds and returns the empty selection and reference
lists.  This theorem evaluates the handler at that failing input. -/
theorem C1_empty_district_choices_not_rejected :
    handleGenerateChoices exState ⟨some [], none, none, none⟩
      = (exState, Except.ok ⟨[], []⟩) := rfl

/-- Claim C2 counterexample: a cutoff record whose category column parses
successfully to `0` (with `OC` parsing to `50`) is not scored by the
category parse, contradicting the claim that the `OC` fallback is used only
when the category parse fails.  The JS `||` also treats the number `0` as
falsy, so the emitted candidate carries cutoff `50`, not `0`. -/
theorem C2_counterexample :
    zeroCutoffRecord.catValue .MBC = some 0 ∧
    resolveCutoffScore zeroCutoffRecord .MBC = some 50 ∧
    (generateSelectionPayload zeroCutoffState ["gamma"] [] 40 .MBC).reference
      = [⟨"Gamma City Inst", "Computer Science", 50⟩] ∧
    (0 : ℚ) ≠ 50 := by
  refine ⟨rfl, rfl, rfl, by norm_num⟩

/-- Claim C2 (amended): the resolved cutoff equals the category parse
whenever that parse succeeds with a nonzero value; the `OC` column is used
whenever the category parse fails or yields `0`; and the record is dropped
(no candidate emitted for the seat) exactly when the category parse fails or
yields `0` and the `OC` parse also fails. -/
theorem C2_amended_cutoff_resolution (c : CutoffData) (cat : Category) :
    (∀ v : ℚ, c.catValue cat = some v → v ≠ 0 → resolveCutoffScore c cat = some v) ∧
    ((c.catValue cat = none ∨ c.catValue cat = some 0) → resolveCutoffScore c cat = c.OC) ∧
    (resolveCutoffScore c cat = none ↔
      (c.catValue cat = none ∨ c.catValue cat = some 0) ∧ c.OC = none) ∧
    (∀ (cutoffs : List CutoffData) (allowed : List String) (seat : SeatData),
      findMatchingCutoff cutoffs seat = some c →
      resolveCutoffScore c cat = none →
      processSeat cutoffs allowed cat seat = none) := by
  refine ⟨?_, ?_, ?_, ?_⟩
  · intro v hv hv0
    unfold resolveCutoffScore
    rw [hv]
    simp [hv0]
  · intro hc
    unfold resolveCutoffScore
    rcases hc with hc | hc
    · rw [hc]
    · rw [hc]; simp
  · unfold resolveCutoffScore
    cases hc : c.catValue cat with
    | none => simp
    | some v => by_cases hv : v = 0 <;> simp [hv]
  · intro cutoffs allowed seat hfind hres
    unfold processSeat
    by_cases h1 : (!(allowed.contains seat.branCode)) = true
    · rw [if_pos h1]
    · rw [if_neg h1]
      by_cases h2 : seat.seats cat ≤ 0
      · rw [if_pos h2]
      · rw [if_neg h2, hfind]
        dsimp only
        rw [hres]

/-- Claim C2 amended witness: both resolution branches applied to concrete
records — a nonzero category parse is kept, a zero category parse falls back
to the `OC` column. -/
theorem C2_amended_cutoff_resolution_witness :
    resolveCutoffScore (mkCutoff "300" "CS" (some 91) none) .MBC = some 91 ∧
    resolveCutoffScore zeroCutoffRecord .MBC = some 50 :=
  ⟨(C2_amended_cutoff_resolution (mkCutoff "300" "CS" (some 91) none) .MBC).1 91 rfl
      (by norm_num),
   ((C2_amended_cutoff_resolution zeroCutoffRecord .MBC).2.1 (Or.inr rfl)).trans rfl⟩

/-- Claim C3: the output is Group A (`topPreferredHighCutoff`) followed
wholesale by Group B (`others`), so every Group A candidate precedes every
Group B candidate regardless of individual cutoffs; and within each group
separately the resolved cutoffs are non-increasing, inherited from the
descending sort through the order-preserving filters. -/
theorem C3_priority_groups_sorted (st : ServerState) (dc tp : List String)
    (mcut : ℚ) (cat : Category) :
    finalSorted st dc tp mcut cat
      = topPreferredHighCutoff st dc tp mcut cat ++ othersGroup st dc tp mcut cat ∧
    (topPreferredHighCutoff st dc tp mcut cat).Pairwise cutoffGE ∧
    (othersGroup st dc tp mcut cat).Pairwise cutoffGE := by
  refine ⟨rfl, ?_, ?_⟩
  · exact List.Pairwise.sublist
      ((List.filter_sublist _).trans (List.filter_sublist _))
      (sorted_sortedSelections st cat)
  · exact List.Pairwise.sublist
      ((List.filter_sublist _).trans (List.filter_sublist _))
      (sorted_sortedSelections st cat)

/-- Claim C10: `generate_choices` leaves all session state unchanged — the
handler and `generateSelectionPayload` assign to no field of the server, so
on every invocation, successful or precondition-failing, the post-state's
seat matrix, cutoff dataset, preferred-course list and session id equal
their pre-state values. -/
theorem C10_generate_choices_frame (st : ServerState) (args : GenerateChoicesArgs) :
    (handleGenerateChoices st args).1.seatMatrix = st.seatMatrix ∧
    (handleGenerateChoices st args).1.cutoffData = st.cutoffData ∧
    (handleGenerateChoices st args).1.preferredCourses = st.preferredCourses ∧
    (handleGenerateChoices st args).1.sessionId = st.sessionId := by
  have h : (handleGenerateChoices st args).1 = st := by
    unfold handleGenerateChoices
    by_cases h1 : st.seatMatrix.length = 0
    · rw [if_pos h1]
    · rw [if_neg h1]
      by_cases h2 : st.cutoffData.length = 0
      · rw [if_pos h2]
      · rw [if_neg h2]
        by_cases h3 : st.preferredCourses.length = 0
        · rw [if_pos h3]
        · rw [if_neg h3]
          cases args.districtChoices <;> rfl
  rw [h]
  exact ⟨rfl, rfl, rfl, rfl⟩

/-- Claim C4: a candidate that passed the district filter lands in Group A
iff its college name case-insensitively contains a top-district entry AND its
cutoff is strictly greater than the threshold (equality is not sufficient),
and in Group B exactly otherwise. -/
theorem C4_group_a_membership (st : ServerState) (dc tp : List String) (mcut : ℚ)
    (cat : Category) (item : ValidSelection)
    (h : item ∈ filteredByDistrict st dc cat) :
    (item ∈ topPreferredHighCutoff st dc tp mcut cat ↔
      (matchesDistrict tp item.college = true ∧ mcut < item.cutoff)) ∧
    (item ∈ othersGroup st dc tp mcut cat ↔
      ¬(matchesDistrict tp item.college = true ∧ mcut < item.cutoff)) := by
  constructor
  · simp [topPreferredHighCutoff, List.mem_filter, h, isTopChoice]
  · simp [othersGroup, List.mem_filter, h, isTopChoice]
    cases hmd : matchesDistrict tp item.college <;> simp [hmd]

/-- Claim C4 witness: in the worked scenario the Chennai candidate with
cutoff 90 sits in Group A for threshold 85 and top district fragment
`"chen"` precisely per the characterization. -/
theorem C4_group_a_membership_witness :
    ((⟨"s1", "Chennai Inst", "Computer Science", 90⟩ : ValidSelection) ∈
        topPreferredHighCutoff exState ["Chennai"] ["chen"] 85 .MBC ↔
      (matchesDistrict ["chen"] "Chennai Inst" = true ∧ (85 : ℚ) < 90)) ∧
    ((⟨"s1", "Chennai Inst", "Computer Science", 90⟩ : ValidSelection) ∈
        othersGroup exState ["Chennai"] ["chen"] 85 .MBC ↔
      ¬(matchesDistrict ["chen"] "Chennai Inst" = true ∧ (85 : ℚ) < 90)) :=
  C4_group_a_membership exState ["Chennai"] ["chen"] 85 .MBC
    ⟨"s1", "Chennai Inst", "Computer Science", 90⟩ (by decide)

/-- Claim C5: a seat record with no exact (college, course) cutoff match that
passes the course and availability filters resolves to the first cutoff
record with its college code and course code `"CS"` in dataset input order,
and is scored by that record's cutoff. -/
theorem C5_cs_fallback_first (pre post : List CutoffData) (r : CutoffData)
    (allowed : List String) (cat : Category) (seat : SeatData) (v : ℚ)
    (hexact : ∀ c ∈ pre ++ r :: post, exactCutoffMatch seat c = false)
    (hpre : ∀ c ∈ pre, csFallbackMatch seat c = false)
    (hr : csFallbackMatch seat r = true)
    (hallow : allowed.contains seat.branCode = true)
    (hseats : 0 < seat.seats cat)
    (hscore : resolveCutoffScore r cat = some v) :
    processSeat (pre ++ r :: post) allowed cat seat
      = some ⟨seat._id, seat.colName, seat.branName, v⟩ := by
  have hnone : (pre ++ r :: post).find? (exactCutoffMatch seat) = none :=
    List.find?_eq_none.mpr (by intro x hx; simp [hexact x hx])
  have hfind : findMatchingCutoff (pre ++ r :: post) seat = some r := by
    unfold findMatchingCutoff
    rw [hnone]
    exact find?_append_first _ pre post r hpre hr
  unfold processSeat
  rw [if_neg (by rw [hallow]; simp), if_neg (by omega), hfind]
  dsimp only
  rw [hscore]

/-- Claim C5 witness: in the worked scenario the `EC` seat has no exact
cutoff but its college carries a `"CS"` record, which scores it. -/
theorem C5_cs_fallback_first_witness :
    processSeat ([] ++ mkCutoff "100" "CS" (some 90) none :: []) ["CS", "EC"] .MBC
        (mkSeat "s2" "100" "Chennai Inst" "EC" "Electronics" 3)
      = some ⟨"s2", "Chennai Inst", "Electronics", 90⟩ :=
  C5_cs_fallback_first [] [] (mkCutoff "100" "CS" (some 90) none) ["CS", "EC"] .MBC
    (mkSeat "s2" "100" "Chennai Inst" "EC" "Electronics" 3) 90
    (by decide) (by decide) (by decide) (by decide) (by decide) (by decide)

/-- Claim C6: a seat whose college code matches no cutoff record at all is
excluded from the output selection list entirely (the hypothesis ranges over
every seat row carrying the id, covering the spec's id-uniqueness invariant). -/
theorem C6_no_cutoff_college_excluded (st : ServerState) (dc tp : List String)
    (mcut : ℚ) (cat : Category) (sid : String)
    (h : ∀ s ∈ st.seatMatrix, s._id = sid → ∀ c ∈ st.cutoffData, c.coc ≠ s.colCode) :
    sid ∉ (generateSelectionPayload st dc tp mcut cat).selections := by
  intro hmem
  simp only [generateSelectionPayload, List.mem_map] at hmem
  obtain ⟨v, hv, hid⟩ := hmem
  have hvf : v ∈ filteredByDistrict st dc cat := mem_finalSorted.mp hv
  have hvs : v ∈ validSelections st cat :=
    mem_sortedSelections.mp (List.mem_filter.mp hvf).1
  obtain ⟨s, hs, hps⟩ := mem_validSelections.mp hvs
  obtain ⟨hidv, -, -, -, -, mc, hfind, -⟩ := processSeat_eq_some hps
  obtain ⟨hmc, hcoc⟩ := findMatchingCutoff_some hfind
  exact h s hs (hidv.symm.trans hid) mc hmc hcoc

/-- Claim C6 witness: the seat of a college absent from the cutoff dataset is
nowhere in the output. -/
theorem C6_no_cutoff_college_excluded_witness :
    "s9" ∉ (generateSelectionPayload orphanState ["delta"] [] 85 .MBC).selections :=
  C6_no_cutoff_college_excluded orphanState ["delta"] [] 85 .MBC "s9" (by decide)

/-- Claim C7: every output entry descends from a seat record whose course
code is in the allowed set, whose seat count at the chosen category is
strictly positive, and whose college name contains a district preference
case-insensitively. -/
theorem C7_output_filters (st : ServerState) (dc tp : List String) (mcut : ℚ)
    (cat : Category) (ref : Reference)
    (h : ref ∈ (generateSelectionPayload st dc tp mcut cat).reference) :
    ∃ s ∈ st.seatMatrix, ref.college = s.colName ∧
      (allowedBranchCodes st).contains s.branCode = true ∧
      0 < s.seats cat ∧
      matchesDistrict dc ref.college = true := by
  simp only [generateSelectionPayload, List.mem_map] at h
  obtain ⟨v, hv, href⟩ := h
  have hvf : v ∈ filteredByDistrict st dc cat := mem_finalSorted.mp hv
  have hd : matchesDistrict dc v.college = true := (List.mem_filter.mp hvf).2
  have hvs : v ∈ validSelections st cat :=
    mem_sortedSelections.mp (List.mem_filter.mp hvf).1
  obtain ⟨s, hs, hps⟩ := mem_validSelections.mp hvs
  obtain ⟨-, hcol, -, hallow, hseats, -⟩ := processSeat_eq_some hps
  refine ⟨s, hs, ?_, hallow, hseats, ?_⟩
  · rw [← href]; exact hcol
  · rw [← href]; exact hd

/-- Claim C7 witness: the top output entry of the worked scenario satisfies
all three filter invariants through its underlying seat record. -/
theorem C7_output_filters_witness :
    ∃ s ∈ exState.seatMatrix,
      (⟨"Chennai Inst", "Computer Science", 90⟩ : Reference).college = s.colName ∧
      (allowedBranchCodes exState).contains s.branCode = true ∧
      0 < s.seats .MBC ∧
      matchesDistrict ["Chennai"]
        (⟨"Chennai Inst", "Computer Science", 90⟩ : Reference).college = true :=
  C7_output_filters exState ["Chennai"] [] 85 .MBC
    ⟨"Chennai Inst", "Computer Science", 90⟩ (by decide)

/-- Claim C8 counterexample: two candidates with equal resolved cutoffs need
not keep seat-matrix order in the final output — the priority partition can
reorder ties across groups.  With seats `sA` (not in a top district) before
`sB` (top district, cutoff above threshold), both scoring 90, the output
lists `sB` first. -/
theorem C8_counterexample :
    tieState.seatMatrix.map (fun s => s._id) = ["sA", "sB"] ∧
    (generateSelectionPayload tieState ["univ"] ["beta"] 85 .MBC).reference.map
      (fun r => r.cutoff) = [90, 90] ∧
    (generateSelectionPayload tieState ["univ"] ["beta"] 85 .MBC).selections
      = ["sB", "sA"] := by
  refine ⟨rfl, rfl, rfl⟩

/-- Claim C8 (amended): the descending sort itself is stable, so two
candidates with equal resolved cutoffs that both pass the district filter and
receive the same priority classification appear in the output in their
seat-matrix input order; only ties split across Group A and Group B are
reordered by the partition. -/
theorem C8_amended_stable_ties (st : ServerState) (dc tp : List String) (mcut : ℚ)
    (cat : Category) (sa sb : SeatData) (a b : ValidSelection)
    (hsub : [sa, sb].Sublist st.seatMatrix)
    (hpa : processSeat st.cutoffData (allowedBranchCodes st) cat sa = some a)
    (hpb : processSeat st.cutoffData (allowedBranchCodes st) cat sb = some b)
    (heq : a.cutoff = b.cutoff)
    (hda : matchesDistrict dc a.college = true)
    (hdb : matchesDistrict dc b.college = true)
    (hgrp : isTopChoice tp mcut a = isTopChoice tp mcut b) :
    [a, b].Sublist (finalSorted st dc tp mcut cat) := by
  have h1 : [a, b].Sublist (validSelections st cat) := by
    have h := hsub.filterMap (processSeat st.cutoffData (allowedBranchCodes st) cat)
    rw [show [sa, sb].filterMap (processSeat st.cutoffData (allowedBranchCodes st) cat)
        = [a, b] by simp [List.filterMap_cons, hpa, hpb]] at h
    exact h
  have h2 : [a, b].Sublist (List.insertionSort cutoffGE (validSelections st cat)) :=
    List.pair_sublist_insertionSort (show cutoffGE a b from le_of_eq heq.symm) h1
  have h3 : [a, b].Sublist (filteredByDistrict st dc cat) := by
    have h := h2.filter fun item => matchesDistrict dc item.college
    rw [show ([a, b].filter fun item => matchesDistrict dc item.college) = [a, b] by
      simp [List.filter_cons, hda, hdb]] at h
    exact h
  cases hg : isTopChoice tp mcut a with
  | true =>
    have hgb : isTopChoice tp mcut b = true := by rw [← hgrp, hg]
    have h4 := h3.filter (isTopChoice tp mcut)
    rw [show [a, b].filter (isTopChoice tp mcut) = [a, b] by
      simp [List.filter_cons, hg, hgb]] at h4
    exact h4.trans (List.sublist_append_left _ _)
  | false =>
    have hgb : isTopChoice tp mcut b = false := by rw [← hgrp, hg]
    have h4 := h3.filter fun item => !(isTopChoice tp mcut item)
    rw [show ([a, b].filter fun item => !(isTopChoice tp mcut item)) = [a, b] by
      simp [List.filter_cons, hg, hgb]] at h4
    exact h4.trans (List.sublist_append_right _ _)

/-- Claim C8 amended witness: the two tied Chennai candidates of the worked
scenario (same group: no top districts given) keep input order `s1`, `s2` in
the final output. -/
theorem C8_amended_stable_ties_witness :
    [(⟨"s1", "Chennai Inst", "Computer Science", 90⟩ : ValidSelection),
     ⟨"s2", "Chennai Inst", "Electronics", 90⟩].Sublist
      (finalSorted exState ["Chennai"] [] 85 .MBC) :=
  C8_amended_stable_ties exState ["Chennai"] [] 85 .MBC
    (mkSeat "s1" "100" "Chennai Inst" "CS" "Computer Science" 5)
    (mkSeat "s2" "100" "Chennai Inst" "EC" "Electronics" 3)
    ⟨"s1", "Chennai Inst", "Computer Science", 90⟩
    ⟨"s2", "Chennai Inst", "Electronics", 90⟩
    (List.Sublist.refl _) rfl rfl rfl (by decide) (by decide) rfl

/-- Claim C9: the returned selection-id and reference sequences always have
equal length, and at every index both sequences describe one and the same
candidate of the final ranking — the selection entry is the id of the `i`-th
candidate of `finalSorted` and the reference entry is that very candidate's
(college, course, cutoff) triple. -/
theorem C9_selection_reference_aligned (st : ServerState) (dc tp : List String)
    (mcut : ℚ) (cat : Category) :
    (generateSelectionPayload st dc tp mcut cat).selections.length
      = (generateSelectionPayload st dc tp mcut cat).reference.length ∧
    ∀ i : ℕ, ∀ hi : i < (generateSelectionPayload st dc tp mcut cat).selections.length,
      ∀ hj : i < (generateSelectionPayload st dc tp mcut cat).reference.length,
      ∃ hk : i < (finalSorted st dc tp mcut cat).length,
        (generateSelectionPayload st dc tp mcut cat).selections.get ⟨i, hi⟩
          = ((finalSorted st dc tp mcut cat).get ⟨i, hk⟩).id ∧
        (generateSelectionPayload st dc tp mcut cat).reference.get ⟨i, hj⟩
          = ⟨((finalSorted st dc tp mcut cat).get ⟨i, hk⟩).college,
             ((finalSorted st dc tp mcut cat).get ⟨i, hk⟩).branch,
             ((finalSorted st dc tp mcut cat).get ⟨i, hk⟩).cutoff⟩ := by
  constructor
  · simp [generateSelectionPayload]
  · intro i hi hj
    have hk : i < (finalSorted st dc tp mcut cat).length := by
      simpa [generateSelectionPayload] using hi
    refine ⟨hk, ?_, ?_⟩
    · simp [generateSelectionPayload, List.get_eq_getElem, List.getElem_map]
    · simp [generateSelectionPayload, List.get_eq_getElem, List.getElem_map]

/-- Claim C9 witness: index 0 of the worked scenario's output is described in
both returned sequences by the same candidate of the final ranking. -/
theorem C9_selection_reference_aligned_witness :
    ∃ hk : 0 < (finalSorted exState ["Chennai"] [] 85 .MBC).length,
      (generateSelectionPayload exState ["Chennai"] [] 85 .MBC).selections.get
        ⟨0, by decide⟩ = ((finalSorted exState ["Chennai"] [] 85 .MBC).get ⟨0, hk⟩).id ∧
      (generateSelectionPayload exState ["Chennai"] [] 85 .MBC).reference.get
        ⟨0, by decide⟩
        = ⟨((finalSorted exState ["Chennai"] [] 85 .MBC).get ⟨0, hk⟩).college,
           ((finalSorted exState ["Chennai"] [] 85 .MBC).get ⟨0, hk⟩).branch,
           ((finalSorted exState ["Chennai"] [] 85 .MBC).get ⟨0, hk⟩).cutoff⟩ :=
  (C9_selection_reference_aligned exState ["Chennai"] [] 85 .MBC).2 0
    (by decide) (by decide)
